import Mathlib

/-!
Verification of the vc4 minigbm backend (src/vc4.c) against its
natural-language specification.

The C code is shallowly embedded: pure geometry helpers become Lean
functions on `Nat` (all the C quantities involved are `uint32_t` and the
claims stay far below `2^32`, so no wrap-around occurs in the modelled
ranges); the kernel ioctl interface becomes an explicit `Kernel` state
with fault-injection fields, and each backend entry point returns its C
return code together with the mutated buffer object, the mutated kernel
state and the ordered list of kernel requests it issued.

Functions of the repository that are declared but not defined under
src/ (the generic helpers `drv_pick_modifier`, `drv_gem_bo_destroy`,
`drv_bo_from_format`, `drv_stride_from_format`,
`drv_bytes_per_pixel_from_format`) are modelled from the spec; each such
definition carries a doc comment saying so.
-/

namespace Vc4

/-- DRM_FORMAT_MOD_LINEAR from drm_fourcc.h. -/
def DRM_FORMAT_MOD_LINEAR : Nat := 0

/-- DRM_FORMAT_MOD_BROADCOM_VC4_T_TILED = fourcc_mod_code(BROADCOM, 1):
vendor 0x07 in the top byte of a 64-bit modifier. -/
def DRM_FORMAT_MOD_BROADCOM_VC4_T_TILED : Nat := 0x0700000000000001

/-- The EINVAL errno value. -/
def EINVAL : Nat := 22

/-- VC4_TILING_FORMAT_LINEAR from src/vc4.c. -/
def VC4_TILING_FORMAT_LINEAR : Nat := 0

/-- VC4_TILING_FORMAT_T from src/vc4.c. -/
def VC4_TILING_FORMAT_T : Nat := 1

/-- VC4_TILING_FORMAT_LT from src/vc4.c. -/
def VC4_TILING_FORMAT_LT : Nat := 2

/-- The ALIGN(A, B) macro of util.h: round A up to a multiple of B.
(For B = 0 the C expression divides by zero; Lean's total division
makes the result 0 there.) -/
def ALIGN (a b : Nat) : Nat := (a + b - 1) / b * b

/-- vc4_utile_width from src/vc4.c: micro-tile width by bytes per pixel. -/
def vc4_utile_width (bytes_per_pixel : Nat) : Nat :=
  if bytes_per_pixel = 1 ∨ bytes_per_pixel = 2 then 8
  else if bytes_per_pixel = 4 then 4
  else if bytes_per_pixel = 8 then 2
  else 0

/-- vc4_utile_height from src/vc4.c: micro-tile height by bytes per pixel. -/
def vc4_utile_height (bytes_per_pixel : Nat) : Nat :=
  if bytes_per_pixel = 1 then 8
  else if bytes_per_pixel = 2 ∨ bytes_per_pixel = 4 ∨ bytes_per_pixel = 8 then 4
  else 0

/-- vc4_size_is_lt from src/vc4.c. -/
def vc4_size_is_lt (width height bytes_per_pixel : Nat) : Bool :=
  decide (width ≤ 4 * vc4_utile_width bytes_per_pixel) ||
    decide (height ≤ 4 * vc4_utile_height bytes_per_pixel)

/-- Per-plane layout as produced by the generic format helper. -/
structure Layout where
  strides : List Nat
  sizes : List Nat
  offsets : List Nat
  total_size : Nat

/-- Modelled from the spec: the external Format Helper's view of a pixel
format (helpers.c is not under src/): `bytesPerPixel(format, 0)`,
`planeCount(format)`, the generic linear layout
`linearLayout(format, stride, height)`, and the per-format stride
`drv_stride_from_format(format, width, 0)`. -/
structure Format where
  bpp0 : Nat
  numPlanes : Nat
  linearLayout : Nat → Nat → Layout
  strideFor : Nat → Nat

/-- The bo->meta fields of drv_priv.h that src/vc4.c touches. -/
structure BoMeta where
  format_modifiers0 : Nat
  tiling : Nat
  strides : List Nat
  sizes : List Nat
  offsets : List Nat
  total_size : Nat
  num_planes : Nat
deriving DecidableEq

/-- A buffer object: its metadata and the per-plane kernel handles. -/
structure Bo where
  meta : BoMeta
  handles : List Nat
deriving DecidableEq

/-- A kernel request issued by the backend, in issue order. -/
inductive KReq where
  | create (size : Nat)
  | setTiling (handle modifier : Nat)
  | destroy (handle : Nat)
deriving DecidableEq

/-- The kernel side of the ioctl interface: the next fresh handle, the
currently live handles, and fault-injection fields telling which errno
(if any) the CREATE and SET_TILING requests fail with. -/
structure Kernel where
  nextHandle : Nat
  live : List Nat
  createErr : Option Nat
  setTilingErr : Option Nat
deriving DecidableEq

/-- DRM_IOCTL_VC4_CREATE_BO: on success returns a fresh live handle. -/
def drmIoctl_create_bo (k : Kernel) (size : Nat) : Except Nat (Nat × Kernel) :=
  match k.createErr with
  | some e => Except.error e
  | none =>
      Except.ok (k.nextHandle,
        { k with nextHandle := k.nextHandle + 1, live := k.nextHandle :: k.live })

/-- DRM_IOCTL_VC4_SET_TILING: records the tiling for a handle; pure
success/failure from the fault-injection field. -/
def drmIoctl_set_tiling (k : Kernel) (handle modifier : Nat) : Except Nat Kernel :=
  match k.setTilingErr with
  | some e => Except.error e
  | none => Except.ok k

/-- DRM_IOCTL_GEM_CLOSE: destroying a handle removes it from the live set. -/
def drmIoctl_gem_close (k : Kernel) (handle : Nat) : Kernel :=
  { k with live := k.live.erase handle }

/-- Modelled from the spec: `drv_gem_bo_destroy` (helpers.c, not under
src/) issues a DESTROY kernel request for each distinct kernel handle
recorded on the buffer object. -/
def drv_gem_bo_destroy (bo : Bo) (k : Kernel) : Kernel × List KReq :=
  let hs := bo.handles.dedup
  (hs.foldl drmIoctl_gem_close k, hs.map KReq.destroy)

/-- Modelled from the spec: `drv_bo_from_format` (helpers.c, not under
src/) fills the per-plane strides/sizes/offsets, the total size and the
plane count of the buffer from the Format Helper's generic linear layout
for the given stride and aligned height. -/
def drv_bo_from_format (fmt : Format) (bo : Bo) (stride aligned_height : Nat) : Bo :=
  let l := fmt.linearLayout stride aligned_height
  { bo with
    meta := { bo.meta with
      strides := l.strides, sizes := l.sizes, offsets := l.offsets,
      total_size := l.total_size, num_planes := fmt.numPlanes } }

/-- Result of a create entry point: the C return code, the mutated
buffer object, the mutated kernel and the kernel requests issued. -/
structure CreateResult where
  ret : Int
  bo : Bo
  kernel : Kernel
  reqs : List KReq
deriving DecidableEq

/-- vc4_bo_create_for_modifier from src/vc4.c: validate the modifier,
compute the geometry (tiled via the micro-tile math, linear via the
64-byte-aligned generic stride), issue CREATE, record the handle on
every plane, issue SET_TILING, and on SET_TILING failure destroy the
just-created handle before returning the error. -/
def vc4_bo_create_for_modifier (fmt : Format) (bo : Bo) (width height modifier : Nat)
    (k : Kernel) : CreateResult :=
  if modifier = DRM_FORMAT_MOD_LINEAR ∨ modifier = DRM_FORMAT_MOD_BROADCOM_VC4_T_TILED then
    let bo1 := { bo with meta := { bo.meta with format_modifiers0 := modifier } }
    let bo2 :=
      if modifier = DRM_FORMAT_MOD_BROADCOM_VC4_T_TILED then
        let bpp := fmt.bpp0
        let uw := vc4_utile_width bpp
        let uh := vc4_utile_height bpp
        let lt := vc4_size_is_lt width height bpp
        let tiling := if lt then VC4_TILING_FORMAT_LT else VC4_TILING_FORMAT_T
        let level_width := if lt then ALIGN width uw else ALIGN width (4 * 2 * uw)
        let level_height := if lt then ALIGN height uh else ALIGN height (4 * 2 * uh)
        let stride0 := level_width * bpp * max 1 1
        let boT := { bo1 with
          meta := { bo1.meta with
            tiling := tiling, strides := [stride0],
            sizes := [level_height * stride0],
            offsets := [level_height * stride0],
            total_size := level_height * stride0 } }
        drv_bo_from_format fmt boT stride0 level_height
      else
        let stride := ALIGN (fmt.strideFor width) 64
        let boL := { bo1 with meta := { bo1.meta with tiling := VC4_TILING_FORMAT_LINEAR } }
        drv_bo_from_format fmt boL stride height
    let size := bo2.meta.total_size
    match drmIoctl_create_bo k size with
    | Except.error e => { ret := -(e : Int), bo := bo2, kernel := k, reqs := [KReq.create size] }
    | Except.ok (h, k1) =>
        let bo3 := { bo2 with handles := List.replicate bo2.meta.num_planes h }
        match drmIoctl_set_tiling k1 h modifier with
        | Except.error e =>
            let dk := drv_gem_bo_destroy bo3 k1
            { ret := -(e : Int), bo := bo3, kernel := dk.1,
              reqs := [KReq.create size, KReq.setTiling h modifier] ++ dk.2 }
        | Except.ok k2 =>
            { ret := 0, bo := bo3, kernel := k2,
              reqs := [KReq.create size, KReq.setTiling h modifier] }
  else
    { ret := -(EINVAL : Int), bo := bo, kernel := k, reqs := [] }

/-- vc4_bo_create from src/vc4.c: the combination-table path; the table
lookup (`drv_get_combination`, not under src/) is passed in as the
optional modifier it found. -/
def vc4_bo_create (fmt : Format) (combo : Option Nat) (bo : Bo) (width height : Nat)
    (k : Kernel) : CreateResult :=
  match combo with
  | none => { ret := -(EINVAL : Int), bo := bo, kernel := k, reqs := [] }
  | some m => vc4_bo_create_for_modifier fmt bo width height m k

/-- The backend's modifier priority order from src/vc4.c. -/
def modifier_order : List Nat :=
  [DRM_FORMAT_MOD_BROADCOM_VC4_T_TILED, DRM_FORMAT_MOD_LINEAR]

/-- Modelled from the spec: `drv_pick_modifier` (helpers.c, not under
src/) returns the first entry of the priority order that also appears in
the caller's candidate list, and fails (InvalidArgument) if none match. -/
def drv_pick_modifier (modifiers : List Nat) (order : List Nat) : Option Nat :=
  order.find? (fun m => modifiers.contains m)

/-- vc4_bo_create_with_modifiers from src/vc4.c. -/
def vc4_bo_create_with_modifiers (fmt : Format) (bo : Bo) (width height : Nat)
    (modifiers : List Nat) (k : Kernel) : CreateResult :=
  match drv_pick_modifier modifiers modifier_order with
  | none => { ret := -(EINVAL : Int), bo := bo, kernel := k, reqs := [] }
  | some m => vc4_bo_create_for_modifier fmt bo width height m k

/-- A process mapping: the recorded length and base address. -/
structure Vma where
  addr : Option Nat
  length : Nat
deriving DecidableEq

/-- Environment for vc4_bo_map: outcome of the DRM_VC4_MMAP_BO request
(errno or mappable offset, by handle) and of the mmap system call
(by length and offset; `none` is MAP_FAILED). -/
structure MapEnv where
  mmapBoResult : Nat → Except Nat Nat
  mmapResult : Nat → Nat → Option Nat

/-- A request issued by the map path, in issue order. -/
inductive MapReq where
  | mmapBo (handle : Nat)
  | mmapCall (length offset : Nat)
deriving DecidableEq

/-- Result of vc4_bo_map: the returned address (`none` is MAP_FAILED),
the mutated vma and the requests issued. -/
structure MapResult where
  addr : Option Nat
  vma : Vma
  reqs : List MapReq
deriving DecidableEq

/-- vc4_bo_map from src/vc4.c: issue DRM_VC4_MMAP_BO against the plane-0
handle (whatever plane was asked for), and on success record
vma->length = total_size before calling mmap for total_size bytes. -/
def vc4_bo_map (env : MapEnv) (bo : Bo) (vma : Vma) (plane : Nat) (map_flags : Nat) :
    MapResult :=
  let h := bo.handles.getD 0 0
  match env.mmapBoResult h with
  | Except.error _ => { addr := none, vma := vma, reqs := [MapReq.mmapBo h] }
  | Except.ok offset =>
      let vma1 := { vma with length := bo.meta.total_size }
      { addr := env.mmapResult bo.meta.total_size offset, vma := vma1,
        reqs := [MapReq.mmapBo h, MapReq.mmapCall bo.meta.total_size offset] }

/-- A concrete 4-bytes-per-pixel single-plane format (ARGB8888) with the
generic single-plane linear layout, for concrete test points. -/
def argb8888 : Format :=
  { bpp0 := 4, numPlanes := 1,
    linearLayout := fun s hgt =>
      { strides := [s], sizes := [s * hgt], offsets := [0], total_size := s * hgt },
    strideFor := fun w => w * 4 }

/-- A concrete 3-bytes-per-pixel single-plane format (e.g. RGB888),
whose bytes-per-pixel is outside the supported micro-tile table. -/
def rgb888 : Format :=
  { bpp0 := 3, numPlanes := 1,
    linearLayout := fun s hgt =>
      { strides := [s], sizes := [s * hgt], offsets := [0], total_size := s * hgt },
    strideFor := fun w => w * 3 }

/-- A fresh, unfilled buffer object. -/
def bo0 : Bo :=
  { meta := { format_modifiers0 := 0, tiling := 0, strides := [], sizes := [],
              offsets := [], total_size := 0, num_planes := 0 },
    handles := [] }

/-- A kernel in which both CREATE and SET_TILING succeed. -/
def kOK : Kernel := { nextHandle := 1, live := [], createErr := none, setTilingErr := none }

/-- A kernel in which CREATE succeeds and SET_TILING fails with errno 5. -/
def kST5 : Kernel := { nextHandle := 1, live := [], createErr := none, setTilingErr := some 5 }

/-- A kernel in which CREATE fails with errno 7. -/
def kCE7 : Kernel := { nextHandle := 1, live := [3], createErr := some 7, setTilingErr := none }

/-- A map environment in which DRM_VC4_MMAP_BO returns offset 4096 for
every handle and the mmap system call fails (MAP_FAILED). -/
def envOK : MapEnv :=
  { mmapBoResult := fun _ => Except.ok 4096, mmapResult := fun _ _ => none }

/-- A concrete already-created buffer: one plane, handle 42, 1024 bytes. -/
def boMapped : Bo :=
  { meta := { format_modifiers0 := 0, tiling := 0, strides := [64], sizes := [1024],
              offsets := [0], total_size := 1024, num_planes := 1 },
    handles := [42] }

/-- A fresh vma. -/
def vma0 : Vma := { addr := none, length := 0 }

/-- Whatever the kernel does, the tiling mode a tiled create records is
LT exactly when vc4_size_is_lt holds, T otherwise. -/
theorem create_tiled_tiling (fmt : Format) (bo : Bo) (w h : Nat) (k : Kernel) :
    (vc4_bo_create_for_modifier fmt bo w h DRM_FORMAT_MOD_BROADCOM_VC4_T_TILED k).bo.meta.tiling =
      if vc4_size_is_lt w h fmt.bpp0 then VC4_TILING_FORMAT_LT else VC4_TILING_FORMAT_T := by
  obtain ⟨nh, live, ce, se⟩ := k
  cases ce <;> cases se <;>
    simp [vc4_bo_create_for_modifier, drmIoctl_create_bo, drmIoctl_set_tiling,
      drv_bo_from_format, drv_gem_bo_destroy]

/-- C7: For every bytes-per-pixel, the computed micro-tile width/height
equal the fixed table (1 → 8×8, 2 → 8×4, 4 → 4×4, 8 → 2×4), and every
other bytes-per-pixel value yields zero for both dimensions. -/
theorem utile_dimensions_table (bpp : Nat) :
    (vc4_utile_width bpp, vc4_utile_height bpp) =
      if bpp = 1 then (8, 8)
      else if bpp = 2 then (8, 4)
      else if bpp = 4 then (4, 4)
      else if bpp = 8 then (2, 4)
      else (0, 0) := by
  unfold vc4_utile_width vc4_utile_height
  by_cases h1 : bpp = 1 <;> by_cases h2 : bpp = 2 <;> by_cases h4 : bpp = 4 <;>
    by_cases h8 : bpp = 8 <;> simp_all

/-- C3: For a tiled create with supported bytes-per-pixel, SmallTiled
(LT) is selected iff width ≤ 4·utile_width or height ≤ 4·utile_height,
and MacroTiled (T) otherwise; with the height large, width = 4·utile_width
selects SmallTiled and width = 4·utile_width + 1 selects MacroTiled. -/
theorem tiled_mode_selection (fmt : Format) (bo : Bo) (w h : Nat) (k : Kernel)
    (hbpp : fmt.bpp0 = 1 ∨ fmt.bpp0 = 2 ∨ fmt.bpp0 = 4 ∨ fmt.bpp0 = 8) :
    ((vc4_bo_create_for_modifier fmt bo w h
        DRM_FORMAT_MOD_BROADCOM_VC4_T_TILED k).bo.meta.tiling = VC4_TILING_FORMAT_LT ↔
      (w ≤ 4 * vc4_utile_width fmt.bpp0 ∨ h ≤ 4 * vc4_utile_height fmt.bpp0)) ∧
    ((vc4_bo_create_for_modifier fmt bo w h
        DRM_FORMAT_MOD_BROADCOM_VC4_T_TILED k).bo.meta.tiling = VC4_TILING_FORMAT_T ↔
      ¬(w ≤ 4 * vc4_utile_width fmt.bpp0 ∨ h ≤ 4 * vc4_utile_height fmt.bpp0)) ∧
    (4 * vc4_utile_height fmt.bpp0 < h →
      (vc4_bo_create_for_modifier fmt bo (4 * vc4_utile_width fmt.bpp0) h
        DRM_FORMAT_MOD_BROADCOM_VC4_T_TILED k).bo.meta.tiling = VC4_TILING_FORMAT_LT ∧
      (vc4_bo_create_for_modifier fmt bo (4 * vc4_utile_width fmt.bpp0 + 1) h
        DRM_FORMAT_MOD_BROADCOM_VC4_T_TILED k).bo.meta.tiling = VC4_TILING_FORMAT_T) := by
  have key : ∀ w1 h1 : Nat,
      (vc4_bo_create_for_modifier fmt bo w1 h1
        DRM_FORMAT_MOD_BROADCOM_VC4_T_TILED k).bo.meta.tiling =
        if vc4_size_is_lt w1 h1 fmt.bpp0 then VC4_TILING_FORMAT_LT else VC4_TILING_FORMAT_T :=
    fun w1 h1 => create_tiled_tiling fmt bo w1 h1 k
  have hlt : ∀ w1 h1 : Nat, vc4_size_is_lt w1 h1 fmt.bpp0 = true ↔
      (w1 ≤ 4 * vc4_utile_width fmt.bpp0 ∨ h1 ≤ 4 * vc4_utile_height fmt.bpp0) := by
    intro w1 h1
    simp [vc4_size_is_lt]
  refine ⟨?_, ?_, ?_⟩
  · rw [key w h]
    by_cases hc : vc4_size_is_lt w h fmt.bpp0 <;>
      simp_all [VC4_TILING_FORMAT_LT, VC4_TILING_FORMAT_T]
  · rw [key w h]
    by_cases hc : vc4_size_is_lt w h fmt.bpp0 <;>
      simp_all [VC4_TILING_FORMAT_LT, VC4_TILING_FORMAT_T]
  · intro hh
    constructor
    · rw [key]
      have : vc4_size_is_lt (4 * vc4_utile_width fmt.bpp0) h fmt.bpp0 = true :=
        (hlt _ _).mpr (Or.inl le_rfl)
      simp [this]
    · rw [key]
      have : vc4_size_is_lt (4 * vc4_utile_width fmt.bpp0 + 1) h fmt.bpp0 = false := by
        rw [Bool.eq_false_iff, Ne, hlt]
        push_neg
        exact ⟨Nat.lt_succ_self _, hh⟩
      simp [this]

/-- C3 witness at bytes-per-pixel 4 (utile 4×4), height 100. -/
theorem tiled_mode_selection_witness :
    ((vc4_bo_create_for_modifier argb8888 bo0 16 100
        DRM_FORMAT_MOD_BROADCOM_VC4_T_TILED kOK).bo.meta.tiling = VC4_TILING_FORMAT_LT ↔
      (16 ≤ 4 * vc4_utile_width argb8888.bpp0 ∨ 100 ≤ 4 * vc4_utile_height argb8888.bpp0)) ∧
    ((vc4_bo_create_for_modifier argb8888 bo0 16 100
        DRM_FORMAT_MOD_BROADCOM_VC4_T_TILED kOK).bo.meta.tiling = VC4_TILING_FORMAT_T ↔
      ¬(16 ≤ 4 * vc4_utile_width argb8888.bpp0 ∨ 100 ≤ 4 * vc4_utile_height argb8888.bpp0)) ∧
    (4 * vc4_utile_height argb8888.bpp0 < 100 →
      (vc4_bo_create_for_modifier argb8888 bo0 (4 * vc4_utile_width argb8888.bpp0) 100
        DRM_FORMAT_MOD_BROADCOM_VC4_T_TILED kOK).bo.meta.tiling = VC4_TILING_FORMAT_LT ∧
      (vc4_bo_create_for_modifier argb8888 bo0 (4 * vc4_utile_width argb8888.bpp0 + 1) 100
        DRM_FORMAT_MOD_BROADCOM_VC4_T_TILED kOK).bo.meta.tiling = VC4_TILING_FORMAT_T) :=
  tiled_mode_selection argb8888 bo0 16 100 kOK (by decide)

/-- C6: With 4 bytes per pixel, a 16×16 tiled create selects SmallTiled
with the dimensions staying 16×16 after utile alignment, stride 64 and
total size 1024; a 64×64 tiled create selects MacroTiled with the
dimensions aligned to multiples of 32 staying 64×64, stride 256 and
plane size 16384. -/
theorem tiled_end_to_end_examples :
    ((vc4_bo_create_for_modifier argb8888 bo0 16 16
        DRM_FORMAT_MOD_BROADCOM_VC4_T_TILED kOK).bo.meta.tiling = VC4_TILING_FORMAT_LT ∧
      ALIGN 16 (vc4_utile_width 4) = 16 ∧ ALIGN 16 (vc4_utile_height 4) = 16 ∧
      (vc4_bo_create_for_modifier argb8888 bo0 16 16
        DRM_FORMAT_MOD_BROADCOM_VC4_T_TILED kOK).bo.meta.strides = [64] ∧
      (vc4_bo_create_for_modifier argb8888 bo0 16 16
        DRM_FORMAT_MOD_BROADCOM_VC4_T_TILED kOK).bo.meta.total_size = 1024) ∧
    ((vc4_bo_create_for_modifier argb8888 bo0 64 64
        DRM_FORMAT_MOD_BROADCOM_VC4_T_TILED kOK).bo.meta.tiling = VC4_TILING_FORMAT_T ∧
      4 * 2 * vc4_utile_width 4 = 32 ∧ 4 * 2 * vc4_utile_height 4 = 32 ∧
      ALIGN 64 32 = 64 ∧
      (vc4_bo_create_for_modifier argb8888 bo0 64 64
        DRM_FORMAT_MOD_BROADCOM_VC4_T_TILED kOK).bo.meta.strides = [256] ∧
      (vc4_bo_create_for_modifier argb8888 bo0 64 64
        DRM_FORMAT_MOD_BROADCOM_VC4_T_TILED kOK).bo.meta.sizes = [16384]) := by
  decide

/-- C1: For a tiled create whose kernel CREATE succeeds and whose
SET_TILING fails, the backend issues CREATE, SET_TILING and then a
DESTROY for the just-created handle, returns the SET_TILING errno
negated, and the kernel's live-handle set is exactly what it was before
the call: no kernel allocation is leaked. -/
theorem set_tiling_failure_rollback (fmt : Format) (bo : Bo) (w h e : Nat) (k : Kernel)
    (hp : 0 < fmt.numPlanes) (hc : k.createErr = none) (hs : k.setTilingErr = some e) :
    (vc4_bo_create_for_modifier fmt bo w h
        DRM_FORMAT_MOD_BROADCOM_VC4_T_TILED k).ret = -(e : Int) ∧
    (∃ s, (vc4_bo_create_for_modifier fmt bo w h
        DRM_FORMAT_MOD_BROADCOM_VC4_T_TILED k).reqs =
      [KReq.create s,
       KReq.setTiling k.nextHandle DRM_FORMAT_MOD_BROADCOM_VC4_T_TILED,
       KReq.destroy k.nextHandle]) ∧
    (vc4_bo_create_for_modifier fmt bo w h
        DRM_FORMAT_MOD_BROADCOM_VC4_T_TILED k).kernel.live = k.live := by
  obtain ⟨nh, live, ce, se⟩ := k
  dsimp only at hc hs ⊢
  subst hc
  subst hs
  simp [vc4_bo_create_for_modifier, drmIoctl_create_bo, drmIoctl_set_tiling,
    drv_bo_from_format, drv_gem_bo_destroy, drmIoctl_gem_close,
    List.replicate_dedup hp.ne']

/-- C1 witness: 4-bytes-per-pixel single-plane format, 16×16, SET_TILING
failing with errno 5. -/
theorem set_tiling_failure_rollback_witness :
    (vc4_bo_create_for_modifier argb8888 bo0 16 16
        DRM_FORMAT_MOD_BROADCOM_VC4_T_TILED kST5).ret = -((5 : Nat) : Int) ∧
    (∃ s, (vc4_bo_create_for_modifier argb8888 bo0 16 16
        DRM_FORMAT_MOD_BROADCOM_VC4_T_TILED kST5).reqs =
      [KReq.create s,
       KReq.setTiling kST5.nextHandle DRM_FORMAT_MOD_BROADCOM_VC4_T_TILED,
       KReq.destroy kST5.nextHandle]) ∧
    (vc4_bo_create_for_modifier argb8888 bo0 16 16
        DRM_FORMAT_MOD_BROADCOM_VC4_T_TILED kST5).kernel.live = kST5.live :=
  set_tiling_failure_rollback argb8888 bo0 16 16 5 kST5 (by decide) rfl rfl

/-- C2 counterexample: with the linear modifier and a kernel whose
SET_TILING request fails with errno 5, the backend does issue a
SET_TILING request after the successful CREATE and the create fails,
contradicting the claim that no SET_TILING is issued for linear and
that the configuration step cannot fail. -/
theorem linear_set_tiling_counterexample :
    KReq.setTiling 1 DRM_FORMAT_MOD_LINEAR ∈
        (vc4_bo_create_for_modifier argb8888 bo0 16 16 DRM_FORMAT_MOD_LINEAR kST5).reqs ∧
    (vc4_bo_create_for_modifier argb8888 bo0 16 16 DRM_FORMAT_MOD_LINEAR kST5).ret = -5 := by
  decide

/-- C2 (amended): for every create with the linear modifier whose kernel
CREATE succeeds, a SET_TILING request carrying the linear modifier is
issued for the new handle; the create returns success exactly when that
SET_TILING also succeeds, and on its failure surfaces the errno after
rollback: a DESTROY for the just-created handle is issued and the
kernel's live-handle set is exactly what it was before the call. -/
theorem linear_create_issues_set_tiling (fmt : Format) (bo : Bo) (w h : Nat) (k : Kernel)
    (hc : k.createErr = none) :
    KReq.setTiling k.nextHandle DRM_FORMAT_MOD_LINEAR ∈
        (vc4_bo_create_for_modifier fmt bo w h DRM_FORMAT_MOD_LINEAR k).reqs ∧
    (k.setTilingErr = none →
      (vc4_bo_create_for_modifier fmt bo w h DRM_FORMAT_MOD_LINEAR k).ret = 0) ∧
    (∀ e, k.setTilingErr = some e →
      (vc4_bo_create_for_modifier fmt bo w h DRM_FORMAT_MOD_LINEAR k).ret = -(e : Int) ∧
      (0 < fmt.numPlanes →
        KReq.destroy k.nextHandle ∈
          (vc4_bo_create_for_modifier fmt bo w h DRM_FORMAT_MOD_LINEAR k).reqs ∧
        (vc4_bo_create_for_modifier fmt bo w h DRM_FORMAT_MOD_LINEAR k).kernel.live =
          k.live)) := by
  obtain ⟨nh, live, ce, se⟩ := k
  dsimp only at hc ⊢
  subst hc
  refine ⟨?_, ?_, ?_⟩
  · cases se <;>
      simp [vc4_bo_create_for_modifier, drmIoctl_create_bo, drmIoctl_set_tiling,
        drv_bo_from_format, drv_gem_bo_destroy, DRM_FORMAT_MOD_LINEAR,
        DRM_FORMAT_MOD_BROADCOM_VC4_T_TILED]
  · intro hs
    subst hs
    simp [vc4_bo_create_for_modifier, drmIoctl_create_bo, drmIoctl_set_tiling,
      drv_bo_from_format, DRM_FORMAT_MOD_LINEAR, DRM_FORMAT_MOD_BROADCOM_VC4_T_TILED]
  · intro e hs
    subst hs
    refine ⟨?_, ?_⟩
    · simp [vc4_bo_create_for_modifier, drmIoctl_create_bo, drmIoctl_set_tiling,
        drv_bo_from_format, drv_gem_bo_destroy, DRM_FORMAT_MOD_LINEAR,
        DRM_FORMAT_MOD_BROADCOM_VC4_T_TILED]
    · intro hp
      simp [vc4_bo_create_for_modifier, drmIoctl_create_bo, drmIoctl_set_tiling,
        drv_bo_from_format, drv_gem_bo_destroy, drmIoctl_gem_close,
        DRM_FORMAT_MOD_LINEAR, DRM_FORMAT_MOD_BROADCOM_VC4_T_TILED,
        List.replicate_dedup hp.ne']

/-- C2 witness: a linear create against a fully succeeding kernel issues
SET_TILING with the linear modifier and returns 0; against a kernel
whose SET_TILING fails with errno 5, it returns -5, issues a DESTROY
for the new handle and leaves the kernel's live-handle set unchanged. -/
theorem linear_create_issues_set_tiling_witness :
    KReq.setTiling kOK.nextHandle DRM_FORMAT_MOD_LINEAR ∈
        (vc4_bo_create_for_modifier argb8888 bo0 16 16 DRM_FORMAT_MOD_LINEAR kOK).reqs ∧
    (vc4_bo_create_for_modifier argb8888 bo0 16 16 DRM_FORMAT_MOD_LINEAR kOK).ret = 0 ∧
    (vc4_bo_create_for_modifier argb8888 bo0 16 16 DRM_FORMAT_MOD_LINEAR kST5).ret =
      -((5 : Nat) : Int) ∧
    KReq.destroy kST5.nextHandle ∈
        (vc4_bo_create_for_modifier argb8888 bo0 16 16 DRM_FORMAT_MOD_LINEAR kST5).reqs ∧
    (vc4_bo_create_for_modifier argb8888 bo0 16 16 DRM_FORMAT_MOD_LINEAR kST5).kernel.live =
      kST5.live :=
  ⟨(linear_create_issues_set_tiling argb8888 bo0 16 16 kOK rfl).1,
   (linear_create_issues_set_tiling argb8888 bo0 16 16 kOK rfl).2.1 rfl,
   ((linear_create_issues_set_tiling argb8888 bo0 16 16 kST5 rfl).2.2 5 rfl).1,
   (((linear_create_issues_set_tiling argb8888 bo0 16 16 kST5 rfl).2.2 5 rfl).2
      (by decide)).1,
   (((linear_create_issues_set_tiling argb8888 bo0 16 16 kST5 rfl).2.2 5 rfl).2
      (by decide)).2⟩

/-- C8: For every create with a recognized modifier whose kernel CREATE
request fails, the create returns the underlying errno negated, the
buffer's plane handles are untouched, the kernel state (so its live
handle set) is unchanged, and CREATE was the only request issued. -/
theorem create_failure_propagates_errno (fmt : Format) (bo : Bo) (w h m e : Nat) (k : Kernel)
    (hm : m = DRM_FORMAT_MOD_LINEAR ∨ m = DRM_FORMAT_MOD_BROADCOM_VC4_T_TILED)
    (hc : k.createErr = some e) :
    (vc4_bo_create_for_modifier fmt bo w h m k).ret = -(e : Int) ∧
    (vc4_bo_create_for_modifier fmt bo w h m k).bo.handles = bo.handles ∧
    (vc4_bo_create_for_modifier fmt bo w h m k).kernel = k ∧
    (vc4_bo_create_for_modifier fmt bo w h m k).reqs =
      [KReq.create (vc4_bo_create_for_modifier fmt bo w h m k).bo.meta.total_size] := by
  obtain ⟨nh, live, ce, se⟩ := k
  dsimp only at hc ⊢
  subst hc
  rcases hm with hm | hm <;> subst hm <;>
    simp [vc4_bo_create_for_modifier, drmIoctl_create_bo, drv_bo_from_format,
      DRM_FORMAT_MOD_LINEAR, DRM_FORMAT_MOD_BROADCOM_VC4_T_TILED]

/-- C8 witness: tiled create against a kernel whose CREATE fails with
errno 7. -/
theorem create_failure_propagates_errno_witness :
    (vc4_bo_create_for_modifier argb8888 bo0 16 16
        DRM_FORMAT_MOD_BROADCOM_VC4_T_TILED kCE7).ret = -((7 : Nat) : Int) ∧
    (vc4_bo_create_for_modifier argb8888 bo0 16 16
        DRM_FORMAT_MOD_BROADCOM_VC4_T_TILED kCE7).bo.handles = bo0.handles ∧
    (vc4_bo_create_for_modifier argb8888 bo0 16 16
        DRM_FORMAT_MOD_BROADCOM_VC4_T_TILED kCE7).kernel = kCE7 ∧
    (vc4_bo_create_for_modifier argb8888 bo0 16 16
        DRM_FORMAT_MOD_BROADCOM_VC4_T_TILED kCE7).reqs =
      [KReq.create (vc4_bo_create_for_modifier argb8888 bo0 16 16
        DRM_FORMAT_MOD_BROADCOM_VC4_T_TILED kCE7).bo.meta.total_size] :=
  create_failure_propagates_errno argb8888 bo0 16 16
    DRM_FORMAT_MOD_BROADCOM_VC4_T_TILED 7 kCE7 (Or.inr rfl) rfl

/-- C9: For every recognized modifier, a create that succeeds records
exactly the requested modifier in the buffer's modifier field. -/
theorem modifier_roundtrip (fmt : Format) (bo : Bo) (w h m : Nat) (k : Kernel)
    (hm : m = DRM_FORMAT_MOD_LINEAR ∨ m = DRM_FORMAT_MOD_BROADCOM_VC4_T_TILED)
    (hc : k.createErr = none) (hs : k.setTilingErr = none) :
    (vc4_bo_create_for_modifier fmt bo w h m k).ret = 0 ∧
    (vc4_bo_create_for_modifier fmt bo w h m k).bo.meta.format_modifiers0 = m := by
  obtain ⟨nh, live, ce, se⟩ := k
  dsimp only at hc hs ⊢
  subst hc
  subst hs
  rcases hm with hm | hm <;> subst hm <;>
    simp [vc4_bo_create_for_modifier, drmIoctl_create_bo, drmIoctl_set_tiling,
      drv_bo_from_format, DRM_FORMAT_MOD_LINEAR, DRM_FORMAT_MOD_BROADCOM_VC4_T_TILED]

/-- C9 witness: creating with the T-tiled modifier against a fully
succeeding kernel succeeds and records the T-tiled modifier. -/
theorem modifier_roundtrip_witness :
    (vc4_bo_create_for_modifier argb8888 bo0 16 16
        DRM_FORMAT_MOD_BROADCOM_VC4_T_TILED kOK).ret = 0 ∧
    (vc4_bo_create_for_modifier argb8888 bo0 16 16
        DRM_FORMAT_MOD_BROADCOM_VC4_T_TILED kOK).bo.meta.format_modifiers0 =
      DRM_FORMAT_MOD_BROADCOM_VC4_T_TILED :=
  modifier_roundtrip argb8888 bo0 16 16
    DRM_FORMAT_MOD_BROADCOM_VC4_T_TILED kOK (Or.inr rfl) rfl rfl

/-- C4 counterexample: a tiled create for a 3-bytes-per-pixel format
(unsupported, so both micro-tile dimensions are 0 and the C ALIGN macro
divides by zero) does NOT fail before the kernel: it issues a CREATE
request (of the degenerate size 0) and even returns success. -/
theorem unsupported_bpp_not_rejected_counterexample :
    KReq.create 0 ∈ (vc4_bo_create_for_modifier rgb888 bo0 100 100
        DRM_FORMAT_MOD_BROADCOM_VC4_T_TILED kOK).reqs ∧
    (vc4_bo_create_for_modifier rgb888 bo0 100 100
        DRM_FORMAT_MOD_BROADCOM_VC4_T_TILED kOK).ret = 0 := by
  decide

/-- C4 (amended): an unrecognized modifier, an absent combination entry
and an empty candidate overlap are each detected before any kernel
request and leave the buffer and the kernel untouched; an unsupported
bytes-per-pixel, however, is NOT rejected: the tiled create still
issues the kernel CREATE request (with degenerate zero-aligned
geometry). -/
theorem invalid_argument_before_any_kernel_request (fmt : Format) (bo : Bo)
    (w h m : Nat) (cands : List Nat) (k : Kernel) :
    (m ≠ DRM_FORMAT_MOD_LINEAR → m ≠ DRM_FORMAT_MOD_BROADCOM_VC4_T_TILED →
      vc4_bo_create_for_modifier fmt bo w h m k =
        { ret := -(EINVAL : Int), bo := bo, kernel := k, reqs := [] }) ∧
    (vc4_bo_create fmt none bo w h k =
      { ret := -(EINVAL : Int), bo := bo, kernel := k, reqs := [] }) ∧
    (DRM_FORMAT_MOD_BROADCOM_VC4_T_TILED ∉ cands → DRM_FORMAT_MOD_LINEAR ∉ cands →
      vc4_bo_create_with_modifiers fmt bo w h cands k =
        { ret := -(EINVAL : Int), bo := bo, kernel := k, reqs := [] }) ∧
    (fmt.bpp0 ≠ 1 → fmt.bpp0 ≠ 2 → fmt.bpp0 ≠ 4 → fmt.bpp0 ≠ 8 →
      KReq.create ((vc4_bo_create_for_modifier fmt bo w h
          DRM_FORMAT_MOD_BROADCOM_VC4_T_TILED k).bo.meta.total_size) ∈
        (vc4_bo_create_for_modifier fmt bo w h
          DRM_FORMAT_MOD_BROADCOM_VC4_T_TILED k).reqs) := by
  refine ⟨?_, ?_, ?_, ?_⟩
  · intro h1 h2
    simp [vc4_bo_create_for_modifier, h1, h2]
  · simp [vc4_bo_create]
  · intro h1 h2
    simp [vc4_bo_create_with_modifiers, drv_pick_modifier, modifier_order,
      List.find?, h1, h2]
  · intro _ _ _ _
    obtain ⟨nh, live, ce, se⟩ := k
    cases ce <;> cases se <;>
      simp [vc4_bo_create_for_modifier, drmIoctl_create_bo, drmIoctl_set_tiling,
        drv_bo_from_format, drv_gem_bo_destroy]

/-- C4 witness: modifier 12345 (unrecognized), an empty candidate list,
and the 3-bytes-per-pixel format. -/
theorem invalid_argument_before_any_kernel_request_witness :
    (vc4_bo_create_for_modifier argb8888 bo0 16 16 12345 kOK =
      { ret := -(EINVAL : Int), bo := bo0, kernel := kOK, reqs := [] }) ∧
    (vc4_bo_create argb8888 none bo0 16 16 kOK =
      { ret := -(EINVAL : Int), bo := bo0, kernel := kOK, reqs := [] }) ∧
    (vc4_bo_create_with_modifiers argb8888 bo0 16 16 [] kOK =
      { ret := -(EINVAL : Int), bo := bo0, kernel := kOK, reqs := [] }) ∧
    (KReq.create ((vc4_bo_create_for_modifier rgb888 bo0 100 100
        DRM_FORMAT_MOD_BROADCOM_VC4_T_TILED kOK).bo.meta.total_size) ∈
      (vc4_bo_create_for_modifier rgb888 bo0 100 100
        DRM_FORMAT_MOD_BROADCOM_VC4_T_TILED kOK).reqs) :=
  ⟨(invalid_argument_before_any_kernel_request argb8888 bo0 16 16 12345 [] kOK).1
      (by decide) (by decide),
   (invalid_argument_before_any_kernel_request argb8888 bo0 16 16 12345 [] kOK).2.1,
   (invalid_argument_before_any_kernel_request argb8888 bo0 16 16 12345 [] kOK).2.2.1
      (by decide) (by decide),
   (invalid_argument_before_any_kernel_request rgb888 bo0 100 100 12345 [] kOK).2.2.2
      (by decide) (by decide) (by decide) (by decide)⟩

/-- C5: create_with_modifiers picks by the backend priority order
[T-tiled, linear]: any candidate list containing the T-tiled modifier
creates with it, one containing only the linear modifier creates with
linear, and one containing neither fails with -EINVAL before any
kernel request. -/
theorem create_with_modifiers_priority (fmt : Format) (bo : Bo) (w h : Nat)
    (cands : List Nat) (k : Kernel) :
    (DRM_FORMAT_MOD_BROADCOM_VC4_T_TILED ∈ cands →
      vc4_bo_create_with_modifiers fmt bo w h cands k =
        vc4_bo_create_for_modifier fmt bo w h DRM_FORMAT_MOD_BROADCOM_VC4_T_TILED k) ∧
    (DRM_FORMAT_MOD_BROADCOM_VC4_T_TILED ∉ cands → DRM_FORMAT_MOD_LINEAR ∈ cands →
      vc4_bo_create_with_modifiers fmt bo w h cands k =
        vc4_bo_create_for_modifier fmt bo w h DRM_FORMAT_MOD_LINEAR k) ∧
    (DRM_FORMAT_MOD_BROADCOM_VC4_T_TILED ∉ cands → DRM_FORMAT_MOD_LINEAR ∉ cands →
      (vc4_bo_create_with_modifiers fmt bo w h cands k).ret = -(EINVAL : Int) ∧
      (vc4_bo_create_with_modifiers fmt bo w h cands k).reqs = []) := by
  refine ⟨?_, ?_, ?_⟩
  · intro hT
    simp [vc4_bo_create_with_modifiers, drv_pick_modifier, modifier_order,
      List.find?, hT]
  · intro hT hL
    simp [vc4_bo_create_with_modifiers, drv_pick_modifier, modifier_order,
      List.find?, hT, hL]
  · intro hT hL
    simp [vc4_bo_create_with_modifiers, drv_pick_modifier, modifier_order,
      List.find?, hT, hL]

/-- C5 witness: a candidate list with both modifiers picks T-tiled, one
with only linear picks linear, the empty one fails with -EINVAL. -/
theorem create_with_modifiers_priority_witness :
    (vc4_bo_create_with_modifiers argb8888 bo0 16 16
        [DRM_FORMAT_MOD_LINEAR, DRM_FORMAT_MOD_BROADCOM_VC4_T_TILED] kOK =
      vc4_bo_create_for_modifier argb8888 bo0 16 16
        DRM_FORMAT_MOD_BROADCOM_VC4_T_TILED kOK) ∧
    (vc4_bo_create_with_modifiers argb8888 bo0 16 16 [DRM_FORMAT_MOD_LINEAR] kOK =
      vc4_bo_create_for_modifier argb8888 bo0 16 16 DRM_FORMAT_MOD_LINEAR kOK) ∧
    ((vc4_bo_create_with_modifiers argb8888 bo0 16 16 [] kOK).ret = -(EINVAL : Int) ∧
      (vc4_bo_create_with_modifiers argb8888 bo0 16 16 [] kOK).reqs = []) :=
  ⟨(create_with_modifiers_priority argb8888 bo0 16 16
      [DRM_FORMAT_MOD_LINEAR, DRM_FORMAT_MOD_BROADCOM_VC4_T_TILED] kOK).1 (by decide),
   (create_with_modifiers_priority argb8888 bo0 16 16
      [DRM_FORMAT_MOD_LINEAR] kOK).2.1 (by decide) (by decide),
   (create_with_modifiers_priority argb8888 bo0 16 16 [] kOK).2.2
      (by decide) (by decide)⟩

/-- C10: For every value of the plane argument, vc4_bo_map behaves as
for plane 0: it issues DRM_VC4_MMAP_BO against the plane-0 handle, and
whenever that request succeeds it records vma length = total size and
calls mmap for exactly total_size bytes at the returned offset — also
when that mmap call then fails, since the length is recorded first. -/
theorem map_plane0_total_size (env : MapEnv) (bo : Bo) (vma : Vma)
    (plane map_flags : Nat) :
    vc4_bo_map env bo vma plane map_flags = vc4_bo_map env bo vma 0 map_flags ∧
    (∀ off, env.mmapBoResult (bo.handles.getD 0 0) = Except.ok off →
      (vc4_bo_map env bo vma plane map_flags).vma.length = bo.meta.total_size ∧
      (vc4_bo_map env bo vma plane map_flags).reqs =
        [MapReq.mmapBo (bo.handles.getD 0 0),
         MapReq.mmapCall bo.meta.total_size off]) := by
  refine ⟨rfl, ?_⟩
  intro off hoff
  unfold vc4_bo_map
  simp only []
  rw [hoff]
  exact ⟨rfl, rfl⟩

/-- C10 witness: plane 3 of a one-plane buffer with handle 42 and total
size 1024, in an environment whose mmap call fails. -/
theorem map_plane0_total_size_witness :
    vc4_bo_map envOK boMapped vma0 3 0 = vc4_bo_map envOK boMapped vma0 0 0 ∧
    ((vc4_bo_map envOK boMapped vma0 3 0).vma.length = boMapped.meta.total_size ∧
      (vc4_bo_map envOK boMapped vma0 3 0).reqs =
        [MapReq.mmapBo (boMapped.handles.getD 0 0),
         MapReq.mmapCall boMapped.meta.total_size 4096]) :=
  ⟨(map_plane0_total_size envOK boMapped vma0 3 0).1,
   (map_plane0_total_size envOK boMapped vma0 3 0).2 4096 rfl⟩

end Vc4
